import Mathlib

/-!
Verification of the MyTutor client logic and of the spec-level contracts of its
assessment and ingestion subsystems.

Pure fragments of the TypeScript sources are embedded as Lean definitions:

* `getAccuracy` from the training-history component (src/unnamed/part_006);
* `validateAnswer`, `submitAnswer`, `handleMatchSelection`, `removeMatch`
  from `EnhancedTrainingInterface.tsx`;
* `handleStop`, `fetchStatus` from `CourseProcessor.tsx` (src/unnamed/part_004
  is an earlier copy with the same logic);
* the statistics computations of `loadTrainingHistory` (src/unnamed/part_006)
  and `loadAnalytics` (src/unnamed/part_002);
* the knowledge-base filter of `fetchKnowledgeBases` (src/unnamed/part_002).

The backend (Resilient Invoker, adaptive difficulty, server-side match grading)
is not part of the source tree; those operations are modelled from the spec and
marked as such in their doc comments.
-/

namespace MyTutor

/-- The function getAccuracy of the TrainingHistory component
(src/unnamed/part_006, lines 81 to 84):
`if (session.questions_answered === 0) return 0;`
`return Math.round((session.correct_answers / session.questions_answered) * 100);`
`Math.round x` equals `⌊x + 1/2⌋` for non-negative `x`; over the exact rationals
this is natural division `(200 * correct + answered) / (2 * answered)`. -/
def getAccuracy (correct answered : Nat) : Nat :=
  if answered = 0 then 0 else (200 * correct + answered) / (2 * answered)

/-- C1: the displayed score/accuracy is 0 when no questions were answered, is
`100 * correct / answered` rounded to the nearest integer (`round` rounds half
up, exactly like `Math.round`) otherwise, and 3 correct out of 4 gives 75. -/
theorem score_recomputation_C1 (c n : Nat) (hn : n ≠ 0) :
    getAccuracy c 0 = 0 ∧
    (getAccuracy c n : ℤ) = round ((100 * c : ℚ) / n) ∧
    getAccuracy 3 4 = 75 := by
  refine ⟨by simp [getAccuracy], ?_, by decide⟩
  have hnQ : (n : ℚ) ≠ 0 := Nat.cast_ne_zero.mpr hn
  have key : (100 * (c : ℚ)) / (n : ℚ) + 1 / 2
      = (((200 * c + n : ℕ) : ℤ) : ℚ) / ((2 * n : ℕ) : ℚ) := by
    push_cast
    field_simp
    ring
  calc ((getAccuracy c n : ℕ) : ℤ)
      = (((200 * c + n) / (2 * n) : ℕ) : ℤ) := by rw [getAccuracy, if_neg hn]
    _ = ((200 * c + n : ℕ) : ℤ) / ((2 * n : ℕ) : ℤ) := by
        exact Int.natCast_div (200 * c + n) (2 * n)
    _ = ⌊(((200 * c + n : ℕ) : ℤ) : ℚ) / ((2 * n : ℕ) : ℚ)⌋ :=
        (Rat.floor_intCast_div_natCast ((200 * c + n : ℕ) : ℤ) (2 * n)).symm
    _ = ⌊(100 * (c : ℚ)) / (n : ℚ) + 1 / 2⌋ := by rw [key]
    _ = round ((100 * c : ℚ) / n) := (round_eq _).symm

/-- Witness for C1 at the concrete input of the spec scenario: 4 questions
answered, 3 correct. -/
theorem score_recomputation_C1_witness :
    getAccuracy 3 0 = 0 ∧
    (getAccuracy 3 4 : ℤ) = round ((100 * (3 : ℕ) : ℚ) / (4 : ℕ)) ∧
    getAccuracy 3 4 = 75 :=
  score_recomputation_C1 3 4 (by decide)

/-- The six question variants of TrainingQuestion.type in
EnhancedTrainingInterface.tsx (line 21). The `match` variant is spelled
`match_q` because `match` is a Lean keyword. -/
inductive QType where
  | mcq
  | true_false
  | fill_blank
  | match_q
  | open_ended
  | scenario
deriving DecidableEq

/-- The JavaScript value domain of `userAnswer` in EnhancedTrainingInterface:
either a string (mcq/true_false option key, free text, or the initial value
of the empty string) or an object mapping left-column labels to right-column
labels (for match questions), modelled as an association list. -/
inductive Answer where
  | str (s : String)
  | map (m : List (String × String))
deriving DecidableEq

/-- The function validateAnswer of EnhancedTrainingInterface.tsx
(lines 199 to 215), with JavaScript semantics made explicit:

* mcq / true_false: `userAnswer !== ''` (an object compares unequal to `''`);
* fill_blank / open_ended / scenario:
  `typeof userAnswer === 'string' && userAnswer.trim().length > 0`;
* match: `Object.keys(userAnswer || {}).length > 0` — for a string value,
  `''` is falsy and yields the empty object, while a non-empty string has its
  character indices as keys, so the check is `s.length > 0`. -/
def validateAnswer : QType → Answer → Bool
  | .mcq, a => decide (a ≠ Answer.str "")
  | .true_false, a => decide (a ≠ Answer.str "")
  | .fill_blank, .str s => decide (0 < s.trim.length)
  | .fill_blank, .map _ => false
  | .open_ended, .str s => decide (0 < s.trim.length)
  | .open_ended, .map _ => false
  | .scenario, .str s => decide (0 < s.trim.length)
  | .scenario, .map _ => false
  | .match_q, .str s => decide (0 < s.length)
  | .match_q, .map m => decide (0 < m.length)

/-- The variant shape contract in the words of the spec: a non-empty selected
key for mcq and true_false, a string non-empty after trimming for fill_blank,
open_ended and scenario, and a mapping with at least one pair for match. This
definition follows the spec wording and is compared with `validateAnswer`,
which follows the source. -/
def claimShape : QType → Answer → Bool
  | .mcq, .str s => decide (s ≠ "")
  | .true_false, .str s => decide (s ≠ "")
  | .fill_blank, .str s => decide (s.trim ≠ "")
  | .open_ended, .str s => decide (s.trim ≠ "")
  | .scenario, .str s => decide (s.trim ≠ "")
  | .match_q, .map m => decide (m ≠ [])
  | _, _ => false

/-- The answer values the component can actually hold for a question of a given
variant: `userAnswer` starts as `''` and is reset to `''` by nextQuestion
(line 220); the mcq/true_false buttons and the textareas only ever store
strings, and handleMatchSelection only ever stores objects, so for the five
string variants the value is a string and for match it is `''` or an object. -/
def uiReachable : QType → Answer → Prop
  | .mcq, a => ∃ s, a = .str s
  | .true_false, a => ∃ s, a = .str s
  | .fill_blank, a => ∃ s, a = .str s
  | .open_ended, a => ∃ s, a = .str s
  | .scenario, a => ∃ s, a = .str s
  | .match_q, a => a = .str "" ∨ ∃ m, a = .map m

/-- A string has positive length exactly when it is not the empty string. -/
theorem string_length_pos_iff (s : String) : 0 < s.length ↔ s ≠ "" := by
  rw [show s.length = s.data.length from rfl, List.length_pos]
  simp [String.ext_iff]

/-- On every answer value the component can hold, the source check
`validateAnswer` coincides with the shape contract of the spec. -/
theorem validateAnswer_eq_claimShape (t : QType) (a : Answer)
    (h : uiReachable t a) : validateAnswer t a = claimShape t a := by
  cases t <;> simp only [uiReachable] at h
  case mcq | true_false =>
    obtain ⟨s, rfl⟩ := h
    exact decide_eq_decide.mpr (by simp)
  case fill_blank | open_ended | scenario =>
    obtain ⟨s, rfl⟩ := h
    exact decide_eq_decide.mpr (string_length_pos_iff s.trim)
  case match_q =>
    rcases h with rfl | ⟨m, rfl⟩
    · rfl
    · exact decide_eq_decide.mpr List.length_pos

/-- The part of the session state that submitAnswer reads and writes
(EnhancedTrainingInterface.tsx, lines 185 to 190). -/
structure SessionState where
  questions_answered : Nat
  correct_answers : Nat
  score : ℚ
deriving DecidableEq

/-- The current question as far as submission is concerned: its variant. -/
structure TrainingQuestion where
  qtype : QType
deriving DecidableEq

/-- The fields of the POST body sent by submitAnswer
(EnhancedTrainingInterface.tsx, lines 170 to 174), without the session id. -/
structure SubmitRequest where
  answer : Answer
  question_type : QType
deriving DecidableEq

/-- The fields of the server response that submitAnswer uses
(EnhancedTrainingInterface.tsx, lines 181 to 190). -/
structure SubmitResponse where
  correct : Bool
  questions_answered : Nat
  score : ℚ
deriving DecidableEq

/-- The function submitAnswer of EnhancedTrainingInterface.tsx
(lines 155 to 197): returns immediately when there is no session or no
current question, returns immediately when validateAnswer fails, and
otherwise issues the request and merges the response into the session
state. The first component is the request issued (none when the function
returned without a request). -/
def submitAnswer (session : Option SessionState)
    (currentQuestion : Option TrainingQuestion) (a : Answer)
    (resp : SubmitResponse) : Option SubmitRequest × Option SessionState :=
  match session, currentQuestion with
  | some s, some q =>
      if validateAnswer q.qtype a then
        (some { answer := a, question_type := q.qtype },
         some { questions_answered := resp.questions_answered,
                correct_answers :=
                  s.correct_answers + (if resp.correct then 1 else 0),
                score := resp.score })
      else (none, some s)
  | _, _ => (none, session)

/-- C3: with a session and a current question present, submitAnswer issues the
answer submission exactly when the answer matches the variant shape contract
(non-empty key for mcq/true_false, non-blank trimmed string for
fill_blank/open_ended/scenario, at least one pair for match), and on a failed
shape check it returns with no request issued and the session state unchanged. -/
theorem submit_answer_shape_gate_C3 (s : SessionState) (q : TrainingQuestion)
    (a : Answer) (resp : SubmitResponse) (hreach : uiReachable q.qtype a) :
    ((submitAnswer (some s) (some q) a resp).1.isSome = true ↔
      claimShape q.qtype a = true) ∧
    (claimShape q.qtype a = false →
      submitAnswer (some s) (some q) a resp = (none, some s)) := by
  have hv := validateAnswer_eq_claimShape q.qtype a hreach
  constructor
  · rw [submitAnswer, hv]
    cases hcs : claimShape q.qtype a <;> simp [hcs]
  · intro h
    rw [submitAnswer, hv, h]
    simp

/-- Witness for C3: an mcq question with selected key A issues the request,
and the same question with the initial empty answer does not. -/
theorem submit_answer_shape_gate_C3_witness :
    ((submitAnswer (some ⟨0, 0, 0⟩) (some ⟨QType.mcq⟩) (Answer.str "A")
        ⟨true, 1, 100⟩).1.isSome = true ↔
      claimShape QType.mcq (Answer.str "A") = true) ∧
    (claimShape QType.mcq (Answer.str "A") = false →
      submitAnswer (some ⟨0, 0, 0⟩) (some ⟨QType.mcq⟩) (Answer.str "A")
        ⟨true, 1, 100⟩ = (none, some ⟨0, 0, 0⟩)) :=
  submit_answer_shape_gate_C3 ⟨0, 0, 0⟩ ⟨QType.mcq⟩ (Answer.str "A")
    ⟨true, 1, 100⟩ ⟨"A", rfl⟩

/-- A successful lookup comes from a pair of the association list. -/
theorem mem_of_lookup_eq_some_pair {l : List (String × String)} {k v : String}
    (h : l.lookup k = some v) : (k, v) ∈ l := by
  obtain ⟨l₁, l₂, rfl, -⟩ := List.lookup_eq_some_iff.mp h
  simp

/-- On an association list with distinct keys, every pair is found by lookup. -/
theorem lookup_eq_some_of_mem_nodupKeys {l : List (String × String)}
    {k v : String} (hnd : (l.map Prod.fst).Nodup) (hm : (k, v) ∈ l) :
    l.lookup k = some v := by
  obtain ⟨l₁, l₂, rfl⟩ := List.append_of_mem hm
  refine List.lookup_eq_some_iff.mpr ⟨l₁, l₂, rfl, ?_⟩
  intro p hp
  rw [List.map_append, List.map_cons, List.nodup_append] at hnd
  have hk : k ∉ l₁.map Prod.fst := fun hmem =>
    hnd.2.2 hmem (List.mem_cons_self _ _)
  have : p.1 ∈ l₁.map Prod.fst := List.mem_map_of_mem Prod.fst hp
  simp only [bne_iff_ne, ne_eq]
  intro hkp
  exact hk (hkp ▸ this)

/-- Modelled from the spec: the server-side grading of a `match` submission
(spec §4.4); the backend implementing it is not under src/. The spec says the
submitted value "is a mapping from left-column label to right-column label;
correct iff it is a total bijection equal to the canonical mapping — partial
credit is not granted". A submission is graded correct exactly when it holds
the same pairs as the canonical mapping: every canonical pair is present in
the submission and every submitted pair is present in the canonical mapping. -/
def gradeMatch (canonical submitted : List (String × String)) : Bool :=
  canonical.all (fun p => submitted.lookup p.1 == some p.2) &&
  submitted.all (fun p => canonical.lookup p.1 == some p.2)

/-- C2: with distinct keys on both sides, a match submission is graded correct
exactly when it agrees with the canonical mapping on every key (a total
bijection equal to the canonical mapping); a submission with fewer pairs, such
as A↦1, B↦2 against canonical A↦1, B↦2, C↦3, is graded (and judged incorrect)
rather than rejected, since the client accepts any mapping with at least one
pair while rejecting the empty one. -/
theorem match_grading_C2 (canonical submitted : List (String × String))
    (hc : (canonical.map Prod.fst).Nodup) (hs : (submitted.map Prod.fst).Nodup)
    (hne : submitted ≠ []) :
    (gradeMatch canonical submitted = true ↔
      ∀ k, submitted.lookup k = canonical.lookup k) ∧
    validateAnswer .match_q (.map submitted) = true ∧
    validateAnswer .match_q (.map []) = false ∧
    gradeMatch [("A", "1"), ("B", "2"), ("C", "3")]
      [("A", "1"), ("B", "2")] = false ∧
    gradeMatch [("A", "1"), ("B", "2"), ("C", "3")]
      [("A", "1"), ("B", "2"), ("C", "3")] = true := by
  refine ⟨?_, ?_, by decide, by decide, by decide⟩
  · rw [gradeMatch, Bool.and_eq_true, List.all_eq_true, List.all_eq_true]
    simp only [beq_iff_eq]
    constructor
    · rintro ⟨hcan, hsub⟩ k
      cases hk : canonical.lookup k with
      | none =>
          cases hk2 : submitted.lookup k with
          | none => rfl
          | some v =>
              have := hsub _ (mem_of_lookup_eq_some_pair hk2)
              rw [hk] at this
              exact absurd this (by simp)
      | some v =>
          exact hcan _ (mem_of_lookup_eq_some_pair hk)
    · intro h
      constructor
      · intro p hp
        rw [h p.1]
        exact lookup_eq_some_of_mem_nodupKeys hc hp
      · intro p hp
        rw [← h p.1]
        exact lookup_eq_some_of_mem_nodupKeys hs hp
  · rw [validateAnswer, decide_eq_true_eq]
    exact List.length_pos.mpr hne

/-- Witness for C2 at the concrete mappings of the spec scenario. -/
theorem match_grading_C2_witness :
    (gradeMatch [("A", "1"), ("B", "2"), ("C", "3")] [("A", "1"), ("B", "2")]
        = true ↔
      ∀ k, [("A", "1"), ("B", "2")].lookup k
        = [("A", "1"), ("B", "2"), ("C", "3")].lookup k) ∧
    validateAnswer .match_q (.map [("A", "1"), ("B", "2")]) = true ∧
    validateAnswer .match_q (.map []) = false ∧
    gradeMatch [("A", "1"), ("B", "2"), ("C", "3")]
      [("A", "1"), ("B", "2")] = false ∧
    gradeMatch [("A", "1"), ("B", "2"), ("C", "3")]
      [("A", "1"), ("B", "2"), ("C", "3")] = true :=
  match_grading_C2 [("A", "1"), ("B", "2"), ("C", "3")] [("A", "1"), ("B", "2")]
    (by decide) (by decide) (by decide)

/-- The two columns of a match question. -/
inductive Column where
  | left
  | right
deriving DecidableEq

/-- The function handleMatchSelection of EnhancedTrainingInterface.tsx
(lines 429 to 447). Clicking a left-column item deletes that key from the
current matches object; clicking a right-column item finds the first key
currently mapped to that item and deletes it (or leaves the object unchanged
when no key maps to it). Neither branch ever inserts a pair. JavaScript
object deletion preserves the order of the remaining keys, so it is a filter
on the association list. -/
def handleMatchSelection (ms : List (String × String)) :
    Column → String → List (String × String)
  | .left, item => ms.filter (fun p => decide (p.1 ≠ item))
  | .right, item =>
      match ms.find? (fun p => p.2 == item) with
      | some p0 => ms.filter (fun p => decide (p.1 ≠ p0.1))
      | none => ms

/-- The function removeMatch of EnhancedTrainingInterface.tsx
(lines 449 to 454): deletes the pair of the given left-column key. -/
def removeMatch (ms : List (String × String)) (leftItem : String) :
    List (String × String) :=
  ms.filter (fun p => decide (p.1 ≠ leftItem))

/-- C8: when no right-column item is used twice (which holds for every mapping
the component builds, since it starts empty and these handlers only remove),
a column selection never adds a pair: the result is a sub-mapping of the
input, a left click leaves no pair with the clicked key, a right click leaves
no pair using the clicked right item, and distinctness of the used
right-column items is preserved, as is it by removeMatch. -/
theorem match_selection_monotone_C8 (m : List (String × String)) (item : String)
    (hvals : (m.map Prod.snd).Nodup) :
    (handleMatchSelection m .left item).Sublist m ∧
    (handleMatchSelection m .right item).Sublist m ∧
    (removeMatch m item).Sublist m ∧
    (∀ p ∈ handleMatchSelection m .left item, p.1 ≠ item) ∧
    (∀ p ∈ handleMatchSelection m .right item, p.2 ≠ item) ∧
    ((handleMatchSelection m .left item).map Prod.snd).Nodup ∧
    ((handleMatchSelection m .right item).map Prod.snd).Nodup := by
  have hsubL : (handleMatchSelection m .left item).Sublist m :=
    List.filter_sublist m
  have hsubR : (handleMatchSelection m .right item).Sublist m := by
    rw [handleMatchSelection]
    cases m.find? (fun p => p.2 == item) with
    | some p0 => exact List.filter_sublist m
    | none => exact List.Sublist.refl m
  refine ⟨hsubL, hsubR, List.filter_sublist m, ?_, ?_,
    hvals.sublist (hsubL.map Prod.snd), hvals.sublist (hsubR.map Prod.snd)⟩
  · intro p hp
    have := (List.mem_filter.mp hp).2
    simpa using this
  · intro p hp
    rw [handleMatchSelection] at hp
    cases hfind : m.find? (fun p => p.2 == item) with
    | none =>
        rw [hfind] at hp
        have := List.find?_eq_none.mp hfind p hp
        simpa using this
    | some p0 =>
        rw [hfind] at hp
        have hp0m : p0 ∈ m := List.mem_of_find?_eq_some hfind
        have hp0v : p0.2 = item := by
          have := List.find?_some hfind
          simpa using this
        obtain ⟨hpm, hpk⟩ := List.mem_filter.mp hp
        intro hpv
        have : p = p0 :=
          List.inj_on_of_nodup_map hvals hpm hp0m (by rw [hpv, hp0v])
        rw [this] at hpk
        simp at hpk

/-- Witness for C8: a right-column click on item 2 removes the pair B↦2 from
the two-pair mapping A↦1, B↦2. -/
theorem match_selection_monotone_C8_witness :
    (handleMatchSelection [("A", "1"), ("B", "2")] .left "2").Sublist
      [("A", "1"), ("B", "2")] ∧
    (handleMatchSelection [("A", "1"), ("B", "2")] .right "2").Sublist
      [("A", "1"), ("B", "2")] ∧
    (removeMatch [("A", "1"), ("B", "2")] "2").Sublist
      [("A", "1"), ("B", "2")] ∧
    (∀ p ∈ handleMatchSelection [("A", "1"), ("B", "2")] .left "2",
      p.1 ≠ "2") ∧
    (∀ p ∈ handleMatchSelection [("A", "1"), ("B", "2")] .right "2",
      p.2 ≠ "2") ∧
    ((handleMatchSelection [("A", "1"), ("B", "2")] .left "2").map
      Prod.snd).Nodup ∧
    ((handleMatchSelection [("A", "1"), ("B", "2")] .right "2").map
      Prod.snd).Nodup :=
  match_selection_monotone_C8 [("A", "1"), ("B", "2")] "2" (by decide)

/-- The ProcessingStatus record of CourseProcessor.tsx (lines 18 to 27),
restricted to the fields the stop and polling logic reads. -/
structure ProcessingStatus where
  status : String
  current_module : Nat
  total_modules : Nat
  progress : Nat
deriving DecidableEq

/-- The component state of CourseProcessor that handleStop and fetchStatus
touch: sessionId, status, isProcessing, and whether the 2-second polling
interval is currently installed. -/
structure ProcState where
  sessionId : Option String
  status : Option ProcessingStatus
  isProcessing : Bool
  intervalActive : Bool
deriving DecidableEq

/-- The function handleStop of CourseProcessor.tsx (lines 160 to 186; the
same logic at lines 117 to 136 of src/unnamed/part_004): with no session id
it returns at once without a request; otherwise it posts stop-processing,
and on success clears isProcessing, status and sessionId and clears the
polling interval (on a failed request the catch only logs, leaving the state
unchanged). The first component records whether a stop request was issued. -/
def handleStop (st : ProcState) (requestSucceeds : Bool) :
    Bool × ProcState :=
  match st.sessionId with
  | none => (false, st)
  | some _ =>
      if requestSucceeds then
        (true, { sessionId := none, status := none,
                 isProcessing := false, intervalActive := false })
      else (true, st)

/-- C6: stopping twice yields the same terminal state: the first successful
stop issues the request and clears the session identifier and status, and a
second invocation (whatever the network would do) issues no request and
changes nothing. -/
theorem stop_idempotent_C6 (st : ProcState) (sid : String)
    (h : st.sessionId = some sid) :
    (handleStop st true).1 = true ∧
    (handleStop st true).2.sessionId = none ∧
    (handleStop st true).2.status = none ∧
    (handleStop st true).2.isProcessing = false ∧
    (handleStop (handleStop st true).2 true
      = (false, (handleStop st true).2)) ∧
    (handleStop (handleStop st true).2 false
      = (false, (handleStop st true).2)) := by
  simp [handleStop, h]

/-- Witness for C6 on a concrete processing state. -/
theorem stop_idempotent_C6_witness :
    (handleStop ⟨some "s1", some ⟨"processing_modules", 1, 4, 25⟩, true, true⟩
      true).1 = true ∧
    (handleStop ⟨some "s1", some ⟨"processing_modules", 1, 4, 25⟩, true, true⟩
      true).2.sessionId = none ∧
    (handleStop ⟨some "s1", some ⟨"processing_modules", 1, 4, 25⟩, true, true⟩
      true).2.status = none ∧
    (handleStop ⟨some "s1", some ⟨"processing_modules", 1, 4, 25⟩, true, true⟩
      true).2.isProcessing = false ∧
    (handleStop (handleStop
        ⟨some "s1", some ⟨"processing_modules", 1, 4, 25⟩, true, true⟩
        true).2 true
      = (false, (handleStop
        ⟨some "s1", some ⟨"processing_modules", 1, 4, 25⟩, true, true⟩
        true).2)) ∧
    (handleStop (handleStop
        ⟨some "s1", some ⟨"processing_modules", 1, 4, 25⟩, true, true⟩
        true).2 false
      = (false, (handleStop
        ⟨some "s1", some ⟨"processing_modules", 1, 4, 25⟩, true, true⟩
        true).2)) :=
  stop_idempotent_C6 _ "s1" rfl

/-- The terminal statuses of the poll loop in CourseProcessor.tsx (lines 67
to 70): completed and error. -/
def isTerminal (s : String) : Bool := s == "completed" || s == "error"

/-- The poll period, from `setInterval(async () => await fetchStatus, 2000)`
in CourseProcessor.tsx (lines 41 to 43). -/
def pollIntervalMs : Nat := 2000

/-- The function fetchStatus of CourseProcessor.tsx (lines 53 to 79; the same
logic at lines 41 to 62 of src/unnamed/part_004): without a session id it
returns at once; otherwise it stores the response as the current status and,
when the returned status is completed or error, stops processing and clears
the polling interval. -/
def fetchStatus (st : ProcState) (resp : ProcessingStatus) : ProcState :=
  match st.sessionId with
  | none => st
  | some _ =>
      if isTerminal resp.status then
        { st with status := some resp, isProcessing := false,
                  intervalActive := false }
      else { st with status := some resp }

/-- One interval firing per list entry while the interval is installed: each
firing runs fetchStatus on the next response; the count is the number of
polls issued. -/
def runPolls : ProcState → List ProcessingStatus → Nat
  | _, [] => 0
  | st, r :: rs =>
      if st.intervalActive then 1 + runPolls (fetchStatus st r) rs else 0

/-- Once the interval is cleared, no further poll is ever issued. -/
theorem runPolls_inactive (st : ProcState) (rs : List ProcessingStatus)
    (h : st.intervalActive = false) : runPolls st rs = 0 := by
  cases rs <;> simp [runPolls, h]

/-- Counting polls along a response trace: every non-terminal response keeps
polling going, and the first terminal response is the last poll. -/
theorem runPolls_count (pre : List ProcessingStatus) :
    ∀ st : ProcState, (∃ sid, st.sessionId = some sid) →
      st.intervalActive = true →
      (∀ r ∈ pre, isTerminal r.status = false) →
      ∀ (t : ProcessingStatus) (post : List ProcessingStatus),
        isTerminal t.status = true →
        runPolls st (pre ++ t :: post) = pre.length + 1 := by
  induction pre with
  | nil =>
      rintro st ⟨sid, hsid⟩ hact - t post ht
      have hoff : (fetchStatus st t).intervalActive = false := by
        rw [fetchStatus, hsid]
        simp [ht]
      simp [runPolls, hact, runPolls_inactive _ _ hoff]
  | cons r pre ih =>
      rintro st ⟨sid, hsid⟩ hact hpre t post ht
      have hr : isTerminal r.status = false := hpre r (List.mem_cons_self r pre)
      have hstep : fetchStatus st r = { st with status := some r } := by
        rw [fetchStatus, hsid]
        simp [hr]
      have := ih (fetchStatus st r) ⟨sid, by rw [hstep]; exact hsid⟩
        (by rw [hstep]; exact hact)
        (fun x hx => hpre x (List.mem_cons_of_mem r hx)) t post ht
      simp [runPolls, hact, this, Nat.add_comm]

/-- C7: the poll repeats every 2 seconds; along any trace of returned statuses
in which the first terminal status (completed or error) is preceded by
non-terminal ones, exactly one poll per preceding response plus the terminal
one is issued, the terminal response clears the interval, and no poll is ever
issued afterwards. -/
theorem poll_stops_at_terminal_C7 (st : ProcState) (sid : String)
    (hsid : st.sessionId = some sid) (hact : st.intervalActive = true)
    (pre post : List ProcessingStatus) (t : ProcessingStatus)
    (hpre : ∀ r ∈ pre, isTerminal r.status = false)
    (ht : isTerminal t.status = true) :
    pollIntervalMs = 2000 ∧
    runPolls st (pre ++ t :: post) = pre.length + 1 ∧
    (fetchStatus st t).intervalActive = false ∧
    runPolls (fetchStatus st t) post = 0 := by
  have hoff : (fetchStatus st t).intervalActive = false := by
    rw [fetchStatus, hsid]
    simp [ht]
  exact ⟨rfl, runPolls_count pre st ⟨sid, hsid⟩ hact hpre t post ht, hoff,
    runPolls_inactive _ _ hoff⟩

/-- Witness for C7 on a concrete trace: three in-progress responses followed
by a completed one and two further scheduled firings; exactly four polls. -/
theorem poll_stops_at_terminal_C7_witness :
    pollIntervalMs = 2000 ∧
    runPolls ⟨some "s1", none, true, true⟩
      ([⟨"discovering_modules", 0, 0, 0⟩, ⟨"processing_modules", 1, 4, 25⟩,
        ⟨"analyzing", 4, 4, 90⟩] ++ ⟨"completed", 4, 4, 100⟩ ::
        [⟨"completed", 4, 4, 100⟩, ⟨"completed", 4, 4, 100⟩])
      = [⟨"discovering_modules", 0, 0, 0⟩, ⟨"processing_modules", 1, 4, 25⟩,
          (⟨"analyzing", 4, 4, 90⟩ : ProcessingStatus)].length + 1 ∧
    (fetchStatus ⟨some "s1", none, true, true⟩
      ⟨"completed", 4, 4, 100⟩).intervalActive = false ∧
    runPolls (fetchStatus ⟨some "s1", none, true, true⟩
      ⟨"completed", 4, 4, 100⟩)
      [⟨"completed", 4, 4, 100⟩, ⟨"completed", 4, 4, 100⟩] = 0 :=
  poll_stops_at_terminal_C7 ⟨some "s1", none, true, true⟩ "s1" rfl rfl
    [⟨"discovering_modules", 0, 0, 0⟩, ⟨"processing_modules", 1, 4, 25⟩,
      ⟨"analyzing", 4, 4, 90⟩]
    [⟨"completed", 4, 4, 100⟩, ⟨"completed", 4, 4, 100⟩]
    ⟨"completed", 4, 4, 100⟩ (by decide) (by decide)

/-- A stored training-session record as the history and analytics views read
it: answered and correct counts and the 0 to 100 score. -/
structure SessionRec where
  questions_answered : Nat
  correct_answers : Nat
  score : ℚ
deriving DecidableEq

/-- The score list of `sessionsData.map(s => s.score).filter(s => s > 0)`
(src/unnamed/part_006 line 44, and the identical line 1266 of
src/unnamed/part_002). -/
def sessionScores (ss : List SessionRec) : List ℚ :=
  (ss.map SessionRec.score).filter (fun s => decide (0 < s))

/-- `Math.max(...scores)` on a non-empty list; the code only calls it after
checking `scores.length > 0`. -/
def jsMax (l : List ℚ) : ℚ :=
  match l with
  | [] => 0
  | x :: xs => xs.foldl max x

/-- `Math.min(...scores)` on a non-empty list. -/
def jsMin (l : List ℚ) : ℚ :=
  match l with
  | [] => 0
  | x :: xs => xs.foldl min x

/-- The stats object built by loadTrainingHistory (src/unnamed/part_006,
lines 41 to 53). -/
structure TrainingHistoryStats where
  total_sessions : Nat
  total_questions_answered : Nat
  total_correct_answers : Nat
  average_score : ℚ
  best_score : ℚ
deriving DecidableEq

/-- The statistics computation of loadTrainingHistory (src/unnamed/part_006,
lines 41 to 53): totals over all sessions, average and best over the
positive scores only, with 0 as the default when no score is positive. -/
def computeHistoryStats (ss : List SessionRec) : TrainingHistoryStats :=
  let scores := sessionScores ss
  { total_sessions := ss.length
    total_questions_answered := (ss.map SessionRec.questions_answered).sum
    total_correct_answers := (ss.map SessionRec.correct_answers).sum
    average_score :=
      if 0 < scores.length then scores.sum / (scores.length : ℚ) else 0
    best_score := if 0 < scores.length then jsMax scores else 0 }

/-- The analytics object built by loadAnalytics (src/unnamed/part_002,
lines 1264 to 1319), restricted to the aggregate fields. -/
structure AnalyticsData where
  totalSessions : Nat
  totalQuestions : Nat
  totalCorrect : Nat
  averageScore : ℚ
  bestScore : ℚ
  worstScore : ℚ
deriving DecidableEq

/-- The aggregate computation of loadAnalytics (src/unnamed/part_002, lines
1264 to 1319): totals over all sessions, average, best and worst over the
positive scores only, 0 when no score is positive. -/
def computeAnalytics (ss : List SessionRec) : AnalyticsData :=
  let scores := sessionScores ss
  { totalSessions := ss.length
    totalQuestions := (ss.map SessionRec.questions_answered).sum
    totalCorrect := (ss.map SessionRec.correct_answers).sum
    averageScore :=
      if 0 < scores.length then scores.sum / (scores.length : ℚ) else 0
    bestScore := if 0 < scores.length then jsMax scores else 0
    worstScore := if 0 < scores.length then jsMin scores else 0 }

/-- C9: a zero-score session is excluded from average/best/worst in both the
history stats and the analytics, while its answered and correct counts do
enter the totals; and when no session has a positive score all the score
aggregates default to 0. -/
theorem stats_positive_scores_C9 (z : SessionRec) (ss ss0 : List SessionRec)
    (hz : z.score = 0) (hall : ∀ s ∈ ss0, ¬ 0 < s.score) :
    (computeHistoryStats (z :: ss)).average_score
      = (computeHistoryStats ss).average_score ∧
    (computeHistoryStats (z :: ss)).best_score
      = (computeHistoryStats ss).best_score ∧
    (computeHistoryStats (z :: ss)).total_questions_answered
      = z.questions_answered
        + (computeHistoryStats ss).total_questions_answered ∧
    (computeHistoryStats (z :: ss)).total_correct_answers
      = z.correct_answers + (computeHistoryStats ss).total_correct_answers ∧
    (computeAnalytics (z :: ss)).averageScore
      = (computeAnalytics ss).averageScore ∧
    (computeAnalytics (z :: ss)).bestScore = (computeAnalytics ss).bestScore ∧
    (computeAnalytics (z :: ss)).worstScore
      = (computeAnalytics ss).worstScore ∧
    (computeHistoryStats ss0).average_score = 0 ∧
    (computeHistoryStats ss0).best_score = 0 ∧
    (computeAnalytics ss0).averageScore = 0 ∧
    (computeAnalytics ss0).bestScore = 0 ∧
    (computeAnalytics ss0).worstScore = 0 := by
  have hcons : sessionScores (z :: ss) = sessionScores ss := by
    simp [sessionScores, hz]
  have hnil : sessionScores ss0 = [] := by
    rw [sessionScores, List.filter_eq_nil_iff]
    intro a ha
    obtain ⟨s, hmem, rfl⟩ := List.mem_map.mp ha
    simpa using hall s hmem
  refine ⟨?_, ?_, ?_, ?_, ?_, ?_, ?_, ?_, ?_, ?_, ?_, ?_⟩ <;>
    simp [computeHistoryStats, computeAnalytics, hcons, hnil]

/-- Witness for C9: a zero-score session next to one 50-percent session, and
a history in which every session scored zero. -/
theorem stats_positive_scores_C9_witness :
    (computeHistoryStats [⟨4, 0, 0⟩, ⟨2, 1, 50⟩]).average_score
      = (computeHistoryStats [⟨2, 1, 50⟩]).average_score ∧
    (computeHistoryStats [⟨4, 0, 0⟩, ⟨2, 1, 50⟩]).best_score
      = (computeHistoryStats [⟨2, 1, 50⟩]).best_score ∧
    (computeHistoryStats [⟨4, 0, 0⟩, ⟨2, 1, 50⟩]).total_questions_answered
      = 4 + (computeHistoryStats [⟨2, 1, 50⟩]).total_questions_answered ∧
    (computeHistoryStats [⟨4, 0, 0⟩, ⟨2, 1, 50⟩]).total_correct_answers
      = 0 + (computeHistoryStats [⟨2, 1, 50⟩]).total_correct_answers ∧
    (computeAnalytics [⟨4, 0, 0⟩, ⟨2, 1, 50⟩]).averageScore
      = (computeAnalytics [⟨2, 1, 50⟩]).averageScore ∧
    (computeAnalytics [⟨4, 0, 0⟩, ⟨2, 1, 50⟩]).bestScore
      = (computeAnalytics [⟨2, 1, 50⟩]).bestScore ∧
    (computeAnalytics [⟨4, 0, 0⟩, ⟨2, 1, 50⟩]).worstScore
      = (computeAnalytics [⟨2, 1, 50⟩]).worstScore ∧
    (computeHistoryStats [⟨3, 0, 0⟩]).average_score = 0 ∧
    (computeHistoryStats [⟨3, 0, 0⟩]).best_score = 0 ∧
    (computeAnalytics [⟨3, 0, 0⟩]).averageScore = 0 ∧
    (computeAnalytics [⟨3, 0, 0⟩]).bestScore = 0 ∧
    (computeAnalytics [⟨3, 0, 0⟩]).worstScore = 0 :=
  stats_positive_scores_C9 ⟨4, 0, 0⟩ [⟨2, 1, 50⟩] [⟨3, 0, 0⟩] rfl
    (by decide)

/-- A knowledge-base record as fetchKnowledgeBases reads it
(src/unnamed/part_002): training_content_generated may be absent, which the
code tolerates for backward compatibility. -/
structure KnowledgeBase where
  id : String
  training_ready : Bool
  status : String
  training_content_generated : Option Bool
deriving DecidableEq

/-- The filter of fetchKnowledgeBases (src/unnamed/part_002, lines 1566 to
1571): `kb.training_ready && kb.status === 'completed' &&
kb.training_content_generated !== false`. -/
def trainingReadyFilter (kb : KnowledgeBase) : Bool :=
  kb.training_ready && kb.status == "completed"
    && kb.training_content_generated != some false

/-- The list of knowledge bases fetchKnowledgeBases keeps and offers for
training (src/unnamed/part_002, line 1567). -/
def filterReadyKnowledgeBases (kbs : List KnowledgeBase) :
    List KnowledgeBase :=
  kbs.filter trainingReadyFilter

/-- C10: a knowledge base is offered for training exactly when it is in the
fetched list, training_ready is true, status equals completed, and
training_content_generated is not explicitly false (absent is allowed). -/
theorem kb_training_filter_C10 (kbs : List KnowledgeBase)
    (kb : KnowledgeBase) :
    kb ∈ filterReadyKnowledgeBases kbs ↔
      kb ∈ kbs ∧ kb.training_ready = true ∧ kb.status = "completed" ∧
        kb.training_content_generated ≠ some false := by
  rw [filterReadyKnowledgeBases, List.mem_filter, trainingReadyFilter]
  simp [and_assoc]

/-- Outcome of one attempt of the wrapped callable: success with a value, a
throttling-class failure, or a non-throttling (fatal) failure. -/
inductive CallOutcome (α : Type) where
  | success (v : α)
  | throttle
  | fatal
deriving DecidableEq

/-- Result of the wrapped call: success with the value and the list of sleep
durations performed (in seconds, in order); GenerationExhausted after running
out of attempts; or immediate failure on a non-throttling error. -/
inductive InvokeOutcome (α : Type) where
  | ok (v : α) (sleeps : List Nat)
  | exhausted (sleeps : List Nat)
  | failed (sleeps : List Nat)
deriving DecidableEq

/-- Modelled from the spec: the backoff of the Resilient Invoker (spec §4.2,
not under src/): sleep `min(60, base * 2^(attempt-1))` seconds with base 10. -/
def backoffDelay (attempt : Nat) : Nat := min 60 (10 * 2 ^ (attempt - 1))

/-- Modelled from the spec: the attempt loop of the Resilient Invoker (spec
§4.2, not under src/). `fuel` is the number of attempts still allowed,
`attempt` the 1-based number of the next attempt, `sleeps` the sleeps
performed so far in reverse. A throttling failure with attempts remaining
sleeps `backoffDelay attempt` and retries; a throttling failure on the last
attempt surfaces exhaustion; a non-throttling failure fails at once. -/
def invokeAux (f : Nat → CallOutcome α) :
    Nat → Nat → List Nat → InvokeOutcome α
  | 0, _, sleeps => .exhausted sleeps.reverse
  | fuel + 1, attempt, sleeps =>
      match f attempt with
      | .success v => .ok v sleeps.reverse
      | .fatal => .failed sleeps.reverse
      | .throttle =>
          if fuel = 0 then .exhausted sleeps.reverse
          else invokeAux f fuel (attempt + 1) (backoffDelay attempt :: sleeps)

/-- Modelled from the spec: the Resilient Invoker entry point (spec §4.2),
given a callable (as its outcome per attempt number) and a maximum attempt
count. -/
def invokeWithRetry (f : Nat → CallOutcome α) (maxAttempts : Nat) :
    InvokeOutcome α :=
  invokeAux f maxAttempts 1 []

/-- The default maximum attempt count of the Resilient Invoker (spec §4.2). -/
def defaultMaxAttempts : Nat := 5

/-- A callable that reports a throttling failure on every attempt. -/
def alwaysThrottle : Nat → CallOutcome Nat := fun _ => .throttle

/-- Unfolding one allowed attempt of the invoker loop. -/
theorem invokeAux_step (f : Nat → CallOutcome α) (fuel attempt : Nat)
    (sleeps : List Nat) :
    invokeAux f (fuel + 1) attempt sleeps
      = match f attempt with
        | .success v => .ok v sleeps.reverse
        | .fatal => .failed sleeps.reverse
        | .throttle =>
            if fuel = 0 then .exhausted sleeps.reverse
            else invokeAux f fuel (attempt + 1)
              (backoffDelay attempt :: sleeps) := rfl

/-- C4: with the default 5 attempts, the stub that throttles on attempts 1
and 2 and succeeds on attempt 3 returns the success value after exactly the
two sleeps 10s then 20s; a non-throttling failure on the first attempt fails
at once with no sleep and no retry; throttling every time exhausts all 5
attempts and surfaces GenerationExhausted after the clamped backoff sleeps
10, 20, 40, 60; and the backoff before retrying attempt k is
min(60, 10 * 2^(k-1)). -/
theorem resilient_invoker_C4 (v : Nat) (f g : Nat → CallOutcome Nat)
    (h1 : f 1 = .throttle) (h2 : f 2 = .throttle) (h3 : f 3 = .success v)
    (hg : g 1 = .fatal) :
    invokeWithRetry f defaultMaxAttempts = .ok v [10, 20] ∧
    invokeWithRetry g defaultMaxAttempts = .failed [] ∧
    invokeWithRetry alwaysThrottle defaultMaxAttempts
      = .exhausted [10, 20, 40, 60] ∧
    backoffDelay 1 = 10 ∧ backoffDelay 2 = 20 ∧ backoffDelay 3 = 40 ∧
    backoffDelay 4 = min 60 (10 * 2 ^ 3) ∧ backoffDelay 4 = 60 := by
  refine ⟨?_, ?_, by decide, by decide, by decide, by decide, by decide,
    by decide⟩
  · show invokeAux f (4 + 1) 1 [] = .ok v [10, 20]
    rw [invokeAux_step, h1]
    show invokeAux f (3 + 1) 2 [backoffDelay 1] = .ok v [10, 20]
    rw [invokeAux_step, h2]
    show invokeAux f (2 + 1) 3 [backoffDelay 2, backoffDelay 1]
      = .ok v [10, 20]
    rw [invokeAux_step, h3]
    rfl
  · show invokeAux g (4 + 1) 1 [] = .failed []
    rw [invokeAux_step, hg]
    rfl

/-- Witness for C4 with the concrete stub of the spec scenario. -/
theorem resilient_invoker_C4_witness :
    invokeWithRetry
        (fun k => if k ≤ 2 then .throttle else .success 7)
        defaultMaxAttempts = .ok 7 [10, 20] ∧
    invokeWithRetry (fun _ => (CallOutcome.fatal : CallOutcome Nat))
      defaultMaxAttempts = .failed [] ∧
    invokeWithRetry alwaysThrottle defaultMaxAttempts
      = .exhausted [10, 20, 40, 60] ∧
    backoffDelay 1 = 10 ∧ backoffDelay 2 = 20 ∧ backoffDelay 3 = 40 ∧
    backoffDelay 4 = min 60 (10 * 2 ^ 3) ∧ backoffDelay 4 = 60 :=
  resilient_invoker_C4 7 (fun k => if k ≤ 2 then .throttle else .success 7)
    (fun _ => (CallOutcome.fatal : CallOutcome Nat)) (by decide) (by decide)
    (by decide) (by decide)

/-- The ordered difficulty tiers of the spec (§4.4). -/
inductive Difficulty where
  | beginner
  | intermediate
  | advanced
deriving DecidableEq, Fintype

/-- The 0-based position of a tier in the ordered enumeration
beginner < intermediate < advanced. -/
def tierIdx : Difficulty → Nat
  | .beginner => 0
  | .intermediate => 1
  | .advanced => 2

/-- Modelled from the spec: the move to the next harder tier, clamped at
advanced (spec §4.4, not under src/). -/
def stepUp : Difficulty → Difficulty
  | .beginner => .intermediate
  | .intermediate => .advanced
  | .advanced => .advanced

/-- Modelled from the spec: the move to the next easier tier, clamped at
beginner (spec §4.4, not under src/). -/
def stepDown : Difficulty → Difficulty
  | .beginner => .beginner
  | .intermediate => .beginner
  | .advanced => .intermediate

/-- The adaptive-difficulty state: the tier the next generated question will
request, plus the current streaks of consecutive correct and consecutive
incorrect answers at that tier. -/
structure DiffState where
  tier : Difficulty
  correctStreak : Nat
  wrongStreak : Nat
deriving DecidableEq

/-- Modelled from the spec: difficulty adaptation on one graded answer (spec
§4.4, not under src/): the third consecutive correct answer moves the
requested tier one step harder and resets the streaks; the second
consecutive incorrect answer moves it one step easier and resets the
streaks; otherwise only the streaks change. -/
def recordAnswer (st : DiffState) (correct : Bool) : DiffState :=
  if correct then
    if 3 ≤ st.correctStreak + 1 then ⟨stepUp st.tier, 0, 0⟩
    else ⟨st.tier, st.correctStreak + 1, 0⟩
  else
    if 2 ≤ st.wrongStreak + 1 then ⟨stepDown st.tier, 0, 0⟩
    else ⟨st.tier, 0, st.wrongStreak + 1⟩

/-- Folding a sequence of graded answers through the adaptation. -/
def recordAnswers (st : DiffState) (results : List Bool) : DiffState :=
  results.foldl recordAnswer st

/-- C5: three consecutive correct answers move the requested tier one step
harder (intermediate to advanced), two consecutive incorrect answers move it
one step easier (advanced to intermediate), shorter or broken streaks leave
the tier unchanged, and both steps clamp at the ends of the ordered
enumeration beginner, intermediate, advanced. -/
theorem adaptive_difficulty_C5 (d : Difficulty) :
    (recordAnswers ⟨d, 0, 0⟩ [true, true, true]).tier = stepUp d ∧
    (recordAnswers ⟨d, 0, 0⟩ [false, false]).tier = stepDown d ∧
    (recordAnswers ⟨d, 0, 0⟩ [true, true]).tier = d ∧
    (recordAnswers ⟨d, 0, 0⟩ [false]).tier = d ∧
    (recordAnswers ⟨d, 0, 0⟩ [true, true, false, true]).tier = d ∧
    (recordAnswers ⟨.intermediate, 0, 0⟩ [true, true, true]).tier
      = .advanced ∧
    (recordAnswers ⟨.advanced, 0, 0⟩ [false, false]).tier = .intermediate ∧
    stepUp .advanced = .advanced ∧
    stepDown .beginner = .beginner ∧
    tierIdx (stepUp d) = min 2 (tierIdx d + 1) ∧
    tierIdx (stepDown d) = tierIdx d - 1 ∧
    tierIdx .beginner < tierIdx .intermediate ∧
    tierIdx .intermediate < tierIdx .advanced := by
  cases d <;> decide

end MyTutor
